import Mathlib

/-!
Verification of the locking-and-dispatch engine in `src/runner.rs` (a
database-backed background job runner).

The runner itself is the only source file; its collaborators (the storage
layer, the connection pool, the thread pool) enter the model as oracle
fields of explicit "world" structures: each world field records the result
the collaborator would return at the corresponding call site.  The control
flow of `run_all_pending_jobs`, `run_single_job`, `get_single_job`,
`try_to_extract_panic_info`, `wait_for_jobs` and `assert_no_failed_jobs` is
translated statement by statement from the Rust source.  Each task records
the database calls it makes as an explicit event trace, so transactional
bracketing (what happens between acquiring the row lock and the final
commit or rollback) is visible in the trace shape.
-/

namespace Swirl

/-- A row of the `background_jobs` table, as used by the runner
(`storage::BackgroundJob`): the id, the registry tag and the opaque
payload. -/
structure BackgroundJob where
  id : Int
  job_type : String
  data : String
deriving Repr, DecidableEq

/-- The payload carried by an abnormal termination, as the runner's
`try_to_extract_panic_info` distinguishes the cases: a structured
`PanicInfo` value (carrying its Display rendering), a `&'static str`
literal, an owned `String`, or anything else. -/
inductive PanicPayload where
  | panicInfo (display : String)
  | staticStr (s : String)
  | ownedString (s : String)
  | other
deriving Repr, DecidableEq

/-- `try_to_extract_panic_info` from `src/runner.rs`: downcast the payload
to `PanicInfo`, `&'static str` or `String` in turn, formatting the first
match with the prefix `"job panicked: "`, and fall back to the bare
message `"job panicked"`. -/
def try_to_extract_panic_info : PanicPayload → String
  | .panicInfo x => "job panicked: " ++ x
  | .staticStr x => "job panicked: " ++ x
  | .ownedString x => "job panicked: " ++ x
  | .other => "job panicked"

/-- The outcome of running the user closure under `catch_unwind`: a normal
`Ok`, a normal error with its message, or an abnormal termination carrying
a payload. -/
inductive UnwindResult where
  | ok
  | err (msg : String)
  | panicked (payload : PanicPayload)
deriving Repr, DecidableEq

/-- `catch_unwind(|| f(job)).map_err(|e| try_to_extract_panic_info(&e)).and_then(|r| r)`
from `get_single_job`: a panic is converted into an ordinary error whose
message comes from `try_to_extract_panic_info`. -/
def firewall : UnwindResult → Except String Unit
  | .ok => Except.ok ()
  | .err m => Except.error m
  | .panicked p => Except.error (try_to_extract_panic_info p)

/-- The database calls a worker task makes, in order, plus the transaction
terminator.  `findNextUnlockedJob` acquires the row lock; the lock is held
until the `commit` or `rollback` event. -/
inductive Event where
  | findNextUnlockedJob
  | invokeHandler (id : Int)
  | deleteSuccessfulJob (id : Int)
  | updateFailedJob (id : Int)
  | logWarning (line : String)
  | commit
  | rollback
deriving Repr, DecidableEq

/-- The oracle world of one worker task spawned by `get_single_job`:
whether `pool.get()` succeeds inside the task, what
`find_next_unlocked_job(&conn).optional()` returns, the outcome of the
user closure under `catch_unwind`, the result of
`delete_successful_job` per id, and whether the final commit succeeds.
(`update_failed_job` is called without `?` in the source, so it carries no
result.) -/
structure TaskWorld where
  poolGet : Bool
  findNext : Except String (Option BackgroundJob)
  handler : BackgroundJob → UnwindResult
  deleteResult : Int → Except String Unit
  commitOk : Bool

/-- The closure passed to `conn.transaction` in `get_single_job`,
returning its `Result` together with the trace of database calls it made:
find the next unlocked job (returning `Ok(())` at once on `None`),
run the handler under the firewall, then retire the job — delete on
success, log `"Job <id> failed to run: <err>"` and `update_failed_job`
on error. -/
def txnClosure (w : TaskWorld) : Except String Unit × List Event :=
  match w.findNext with
  | Except.error e => (Except.error e, [Event.findNextUnlockedJob])
  | Except.ok none => (Except.ok (), [Event.findNextUnlockedJob])
  | Except.ok (some job) =>
    match firewall (w.handler job) with
    | Except.ok _ =>
      match w.deleteResult job.id with
      | Except.ok _ =>
        (Except.ok (), [Event.findNextUnlockedJob, Event.invokeHandler job.id,
          Event.deleteSuccessfulJob job.id])
      | Except.error e =>
        (Except.error e, [Event.findNextUnlockedJob, Event.invokeHandler job.id,
          Event.deleteSuccessfulJob job.id])
    | Except.error e =>
      (Except.ok (), [Event.findNextUnlockedJob, Event.invokeHandler job.id,
        Event.logWarning ("Job " ++ toString job.id ++ " failed to run: " ++ e),
        Event.updateFailedJob job.id])

/-- How a worker task spawned by `get_single_job` terminates: normal
completion, or a panic (an `expect` failure) that the thread pool counts
in `panic_count`. -/
inductive TaskResult where
  | completed
  | panicked (msg : String)
deriving Repr, DecidableEq

/-- The body of the closure handed to `self.thread_pool.execute` in
`get_single_job`: acquire a fresh connection from the cloned pool
(`expect("Could not acquire connection")` on failure), run `txnClosure`
inside `conn.transaction` (commit on `Ok`, rollback on `Err` or on commit
failure), and `expect("Could not retrieve or update job")` on a failed
transaction. -/
def taskRun (w : TaskWorld) : TaskResult × List Event :=
  if w.poolGet then
    let c := txnClosure w
    match c.1 with
    | Except.ok _ =>
      if w.commitOk then (TaskResult.completed, c.2 ++ [Event.commit])
      else (TaskResult.panicked "Could not retrieve or update job", c.2 ++ [Event.rollback])
    | Except.error _ =>
      (TaskResult.panicked "Could not retrieve or update job", c.2 ++ [Event.rollback])
  else (TaskResult.panicked "Could not acquire connection", [])

/-- The closure built in `run_single_job` and handed to `get_single_job`:
look the job's tag up in the registry, failing with
`"Unknown job type <tag>"` when absent, and otherwise run the registered
handler on the payload and the shared environment.  A registry entry may
itself terminate abnormally, hence the `UnwindResult` codomain. -/
def run_single_job_handler {Env : Type} (registry : String → Option (String → Env → UnwindResult))
    (environment : Env) (job : BackgroundJob) : UnwindResult :=
  match registry job.job_type with
  | none => UnwindResult.err ("Unknown job type " ++ job.job_type)
  | some perform_fn => perform_fn job.data environment

/-- The oracle world of one `run_all_pending_jobs` call: whether
`try_connection` yields a connection, and what
`storage::available_job_count` returns on it. -/
structure DispatchWorld where
  tryConn : Bool
  availableJobCount : Except String Nat

/-- `run_all_pending_jobs` from `src/runner.rs`, returning its `Result`
together with the number of `run_single_job` tasks submitted to the
thread pool.  The definition consults no task outcome: the dispatcher
fires the tasks and returns at once. -/
def run_all_pending_jobs (w : DispatchWorld) : Except String Unit × Nat :=
  if w.tryConn then
    match w.availableJobCount with
    | Except.error e => (Except.error e, 0)
    | Except.ok n => (Except.ok (), n)
  else (Except.ok (), 0)

/-- The state of the locked job's row as the database sees it once the
task's transaction has ended. -/
inductive RowState where
  | available (retries : Nat)
  | deleted
deriving Repr, DecidableEq

/-- The effect of one committed database call on the row with id
`jobId`: `delete_successful_job` removes it, `update_failed_job`
increments its retry counter, every other call leaves it unchanged. -/
def applyEvent (jobId : Int) (s : RowState) : Event → RowState
  | Event.deleteSuccessfulJob i => if i = jobId then RowState.deleted else s
  | Event.updateFailedJob i =>
    if i = jobId then
      match s with
      | RowState.available r => RowState.available (r + 1)
      | RowState.deleted => RowState.deleted
    else s
  | _ => s

/-- The row state of job `jobId` (initially available with `init`
retries) after the task has run: the writes of the transaction take
effect only when it committed; on rollback the row reverts to its initial
state. -/
def finalRowState (init : Nat) (jobId : Int) (w : TaskWorld) : RowState :=
  let evs := (taskRun w).2
  if Event.commit ∈ evs then evs.foldl (applyEvent jobId) (RowState.available init)
  else RowState.available init

/-- Whether a task terminated abnormally, as the thread pool's
`panic_count` observes it. -/
def isPanicked : TaskResult → Bool
  | TaskResult.completed => false
  | TaskResult.panicked _ => true

/-- `ThreadPool::panic_count`: the number of submitted tasks that
terminated abnormally. -/
def panic_count (rs : List TaskResult) : Nat :=
  (rs.filter isPanicked).length

/-- The oracle world of the observability helpers: the thread pool's
panic count after `join`, the result of `self.connection()`, and what
`storage::failed_job_count` returns on it. -/
structure ObserverWorld where
  panicCount : Nat
  connection : Except String Unit
  failedJobCount : Except String Int

/-- The calls `assert_no_failed_jobs` makes, in order. -/
inductive ObserveEvent where
  | joinPool
  | assertPanicCountZero
  | getConnection
  | queryFailedJobCount
  | assertFailedZero
deriving Repr, DecidableEq

/-- How a call into the observability helpers ends: `Ok(())`, an error
return, or an assertion failure (a panic). -/
inductive Outcome where
  | ok
  | err (e : String)
  | panicked (msg : String)
deriving Repr, DecidableEq

/-- `wait_for_jobs` from `src/runner.rs`: join the thread pool, then
`assert_eq!(0, panic_count())`.  Returns the panic message when the
assertion fails, `none` otherwise, along with the calls made. -/
def wait_for_jobs (w : ObserverWorld) : Option String × List ObserveEvent :=
  if w.panicCount = 0 then (none, [ObserveEvent.joinPool, ObserveEvent.assertPanicCountZero])
  else (some "assertion failed: panic_count is not 0",
    [ObserveEvent.joinPool, ObserveEvent.assertPanicCountZero])

/-- `assert_no_failed_jobs` from `src/runner.rs`: `wait_for_jobs()`, then
`failed_job_count` on a freshly acquired connection (propagating either
error with `?`), then `assert_eq!(0, failed_jobs)`. -/
def assert_no_failed_jobs (w : ObserverWorld) : Outcome × List ObserveEvent :=
  match wait_for_jobs w with
  | (some m, evs) => (Outcome.panicked m, evs)
  | (none, evs) =>
    match w.connection with
    | Except.error e => (Outcome.err e, evs ++ [ObserveEvent.getConnection])
    | Except.ok _ =>
      match w.failedJobCount with
      | Except.error e =>
        (Outcome.err e, evs ++ [ObserveEvent.getConnection, ObserveEvent.queryFailedJobCount])
      | Except.ok n =>
        if n = 0 then
          (Outcome.ok, evs ++ [ObserveEvent.getConnection, ObserveEvent.queryFailedJobCount,
            ObserveEvent.assertFailedZero])
        else
          (Outcome.panicked "assertion failed: failed_job_count is not 0",
            evs ++ [ObserveEvent.getConnection, ObserveEvent.queryFailedJobCount,
              ObserveEvent.assertFailedZero])

/-- A concrete job used by the witnesses. -/
def sampleJob : BackgroundJob :=
  { id := 7, job_type := "Foo", data := "null" }

/-- A concrete task world in which the pool yields a connection, the row
for `sampleJob` is locked, the handler succeeds, the delete succeeds and
the commit succeeds. -/
def sampleTaskWorld : TaskWorld :=
  { poolGet := true
    findNext := Except.ok (some sampleJob)
    handler := fun _ => UnwindResult.ok
    deleteResult := fun _ => Except.ok ()
    commitOk := true }

/-- A registry with no entries, used by the witnesses. -/
def emptyRegistry : String → Option (String → Unit → UnwindResult) := fun _ => none

/-- The task world of the unknown-job-type witness: `sampleTaskWorld`
with the handler built by `run_single_job` over the empty registry. -/
def c4World : TaskWorld :=
  { sampleTaskWorld with handler := run_single_job_handler emptyRegistry () }

/-- The task world of the failing-handler witness: `sampleTaskWorld` with
a handler that returns the error `"nope"`. -/
def c5World : TaskWorld :=
  { sampleTaskWorld with handler := fun _ => UnwindResult.err "nope" }

/-- An observer world with no panics, a healthy connection and no failed
jobs, used by the witnesses. -/
def obsWorldOk : ObserverWorld :=
  { panicCount := 0, connection := Except.ok (), failedJobCount := Except.ok 0 }

/-- The transaction closure never emits the `commit` event: committing is
done by `conn.transaction` after the closure returns. -/
theorem commit_not_in_txnClosure (w : TaskWorld) : Event.commit ∉ (txnClosure w).2 := by
  cases hf : w.findNext with
  | error e => simp [txnClosure, hf]
  | ok j =>
    cases j with
    | none => simp [txnClosure, hf]
    | some job =>
      cases hfw : firewall (w.handler job) with
      | ok u => cases hd : w.deleteResult job.id <;> simp [txnClosure, hf, hfw, hd]
      | error e => simp [txnClosure, hf, hfw]

/-- C6: for every panic payload, the firewall's message extraction
returns the canonical display of a structured panic-info value, a short
textual literal verbatim, or an owned string verbatim, each prefixed with
`"job panicked: "`; for any other payload it returns exactly
`"job panicked"`. -/
theorem C6_panic_info_extraction :
    (∀ d, try_to_extract_panic_info (PanicPayload.panicInfo d) = "job panicked: " ++ d) ∧
    (∀ s, try_to_extract_panic_info (PanicPayload.staticStr s) = "job panicked: " ++ s) ∧
    (∀ s, try_to_extract_panic_info (PanicPayload.ownedString s) = "job panicked: " ++ s) ∧
    try_to_extract_panic_info PanicPayload.other = "job panicked" := by
  refine ⟨fun d => rfl, fun s => rfl, fun s => rfl, rfl⟩

/-- C2: for every call to `run_all_pending_jobs` in which a connection is
acquired and `available_job_count` returns `Ok(n)`, exactly `n` tasks are
submitted to the worker pool and the call returns `Ok(())`; if
`available_job_count` returns an error, that error is returned and no
tasks are submitted.  (That the call does not wait for any task is
reflected in the model: `run_all_pending_jobs` is defined without
reference to any task outcome.) -/
theorem C2_dispatch_submits_count (w : DispatchWorld) (h : w.tryConn = true) :
    (∀ n, w.availableJobCount = Except.ok n →
      run_all_pending_jobs w = (Except.ok (), n)) ∧
    (∀ e, w.availableJobCount = Except.error e →
      run_all_pending_jobs w = (Except.error e, 0)) := by
  constructor
  · intro n hn
    simp [run_all_pending_jobs, h, hn]
  · intro e he
    simp [run_all_pending_jobs, h, he]

theorem C2_dispatch_submits_count_witness :
    ({ tryConn := true, availableJobCount := Except.ok 3 } : DispatchWorld).tryConn = true ∧
    run_all_pending_jobs { tryConn := true, availableJobCount := Except.ok 3 } =
      (Except.ok (), 3) :=
  ⟨rfl, (C2_dispatch_submits_count { tryConn := true, availableJobCount := Except.ok 3 }
    rfl).1 3 rfl⟩

/-- C3: for every call to `run_all_pending_jobs` in which no connection
can be acquired from the pool, the call returns `Ok(())` and submits no
tasks to the worker pool. -/
theorem C3_no_connection_is_ok (w : DispatchWorld) (h : w.tryConn = false) :
    run_all_pending_jobs w = (Except.ok (), 0) := by
  simp [run_all_pending_jobs, h]

theorem C3_no_connection_is_ok_witness :
    run_all_pending_jobs { tryConn := false, availableJobCount := Except.ok 3 } =
      (Except.ok (), 0) :=
  C3_no_connection_is_ok { tryConn := false, availableJobCount := Except.ok 3 } rfl

/-- C7: for every task in which `find_next_unlocked_job` returns no job,
the transaction closure returns `Ok(())` immediately — no handler is
invoked and no retire operation runs — and (when the commit succeeds) the
transaction commits and the task exits cleanly. -/
theorem C7_empty_queue_commits_cleanly (w : TaskWorld) (hp : w.poolGet = true)
    (hf : w.findNext = Except.ok none) :
    txnClosure w = (Except.ok (), [Event.findNextUnlockedJob]) ∧
    (∀ i, Event.invokeHandler i ∉ (taskRun w).2 ∧
      Event.deleteSuccessfulJob i ∉ (taskRun w).2 ∧
      Event.updateFailedJob i ∉ (taskRun w).2) ∧
    (w.commitOk = true →
      taskRun w = (TaskResult.completed, [Event.findNextUnlockedJob, Event.commit])) := by
  have hc : txnClosure w = (Except.ok (), [Event.findNextUnlockedJob]) := by
    simp [txnClosure, hf]
  refine ⟨hc, ?_, ?_⟩
  · intro i
    cases hco : w.commitOk <;> simp [taskRun, hp, hc, hco]
  · intro hco
    simp [taskRun, hp, hc, hco]

theorem C7_empty_queue_commits_cleanly_witness :
    txnClosure { sampleTaskWorld with findNext := Except.ok none } =
      (Except.ok (), [Event.findNextUnlockedJob]) ∧
    taskRun { sampleTaskWorld with findNext := Except.ok none } =
      (TaskResult.completed, [Event.findNextUnlockedJob, Event.commit]) :=
  ⟨(C7_empty_queue_commits_cleanly { sampleTaskWorld with findNext := Except.ok none }
      rfl rfl).1,
    (C7_empty_queue_commits_cleanly { sampleTaskWorld with findNext := Except.ok none }
      rfl rfl).2.2 rfl⟩

/-- C9: every worker task draws its own fresh connection from the cloned
pool inside the task body (in the model, `TaskWorld.poolGet` is the
task's own `pool.get()`, distinct from the dispatcher's
`DispatchWorld.tryConn`), and if the pool cannot supply a connection the
task fails fatally with an abnormal abort that the worker pool counts in
`panic_count`. -/
theorem C9_task_connection_failure_is_fatal (w : TaskWorld) (h : w.poolGet = false) :
    taskRun w = (TaskResult.panicked "Could not acquire connection", []) ∧
    (∀ rs, panic_count (rs ++ [(taskRun w).1]) = panic_count rs + 1) := by
  have ht : taskRun w = (TaskResult.panicked "Could not acquire connection", []) := by
    simp [taskRun, h]
  refine ⟨ht, fun rs => ?_⟩
  simp [panic_count, ht, isPanicked]

theorem C9_task_connection_failure_is_fatal_witness :
    taskRun { sampleTaskWorld with poolGet := false } =
      (TaskResult.panicked "Could not acquire connection", []) ∧
    panic_count ([TaskResult.completed] ++
      [(taskRun { sampleTaskWorld with poolGet := false }).1]) =
      panic_count [TaskResult.completed] + 1 :=
  ⟨(C9_task_connection_failure_is_fatal { sampleTaskWorld with poolGet := false } rfl).1,
    (C9_task_connection_failure_is_fatal { sampleTaskWorld with poolGet := false } rfl).2
      [TaskResult.completed]⟩

/-- C1: for every task that locks a job, the handler invocation and the
retire action both happen strictly between the lock-acquiring
`find_next_unlocked_job` call and the transaction terminator: the trace
is `findNextUnlockedJob`, then the handler invocation, then a middle
segment containing the retire call (`deleteSuccessfulJob` or
`updateFailedJob` for that job's id) with no `commit` or `rollback`
inside it, closed by a single terminator — and that terminator is
`commit` (releasing the lock by commit) exactly when the closure
succeeded and the commit succeeded. -/
theorem C1_retire_inside_locking_txn (w : TaskWorld) (job : BackgroundJob)
    (hp : w.poolGet = true) (hf : w.findNext = Except.ok (some job)) :
    ∃ mid term,
      (taskRun w).2 =
        Event.findNextUnlockedJob :: Event.invokeHandler job.id :: (mid ++ [term]) ∧
      (term = Event.commit ∨ term = Event.rollback) ∧
      (Event.deleteSuccessfulJob job.id ∈ mid ∨ Event.updateFailedJob job.id ∈ mid) ∧
      Event.commit ∉ mid ∧ Event.rollback ∉ mid ∧
      (term = Event.commit ↔
        (∃ u, (txnClosure w).1 = Except.ok u) ∧ w.commitOk = true) := by
  cases hfw : firewall (w.handler job) with
  | ok u =>
    cases hd : w.deleteResult job.id with
    | ok v =>
      have htxn : txnClosure w = (Except.ok (),
          [Event.findNextUnlockedJob, Event.invokeHandler job.id,
            Event.deleteSuccessfulJob job.id]) := by
        simp [txnClosure, hf, hfw, hd]
      cases hco : w.commitOk with
      | true =>
        refine ⟨[Event.deleteSuccessfulJob job.id], Event.commit, ?_, Or.inl rfl,
          Or.inl (by simp), by simp, by simp, ?_⟩
        · simp [taskRun, hp, htxn, hco]
        · simp [htxn, hco]
      | false =>
        refine ⟨[Event.deleteSuccessfulJob job.id], Event.rollback, ?_, Or.inr rfl,
          Or.inl (by simp), by simp, by simp, ?_⟩
        · simp [taskRun, hp, htxn, hco]
        · simp [htxn, hco]
    | error err =>
      have htxn : txnClosure w = (Except.error err,
          [Event.findNextUnlockedJob, Event.invokeHandler job.id,
            Event.deleteSuccessfulJob job.id]) := by
        simp [txnClosure, hf, hfw, hd]
      refine ⟨[Event.deleteSuccessfulJob job.id], Event.rollback, ?_, Or.inr rfl,
        Or.inl (by simp), by simp, by simp, ?_⟩
      · simp [taskRun, hp, htxn]
      · simp [htxn]
  | error msg =>
    have htxn : txnClosure w = (Except.ok (),
        [Event.findNextUnlockedJob, Event.invokeHandler job.id,
          Event.logWarning ("Job " ++ toString job.id ++ " failed to run: " ++ msg),
          Event.updateFailedJob job.id]) := by
      simp [txnClosure, hf, hfw]
    cases hco : w.commitOk with
    | true =>
      refine ⟨[Event.logWarning ("Job " ++ toString job.id ++ " failed to run: " ++ msg),
        Event.updateFailedJob job.id], Event.commit, ?_, Or.inl rfl,
        Or.inr (by simp), by simp, by simp, ?_⟩
      · simp [taskRun, hp, htxn, hco]
      · simp [htxn, hco]
    | false =>
      refine ⟨[Event.logWarning ("Job " ++ toString job.id ++ " failed to run: " ++ msg),
        Event.updateFailedJob job.id], Event.rollback, ?_, Or.inr rfl,
        Or.inr (by simp), by simp, by simp, ?_⟩
      · simp [taskRun, hp, htxn, hco]
      · simp [htxn, hco]

theorem C1_retire_inside_locking_txn_witness :
    ∃ mid term,
      (taskRun sampleTaskWorld).2 =
        Event.findNextUnlockedJob :: Event.invokeHandler sampleJob.id :: (mid ++ [term]) ∧
      (term = Event.commit ∨ term = Event.rollback) ∧
      (Event.deleteSuccessfulJob sampleJob.id ∈ mid ∨
        Event.updateFailedJob sampleJob.id ∈ mid) ∧
      Event.commit ∉ mid ∧ Event.rollback ∉ mid ∧
      (term = Event.commit ↔
        (∃ u, (txnClosure sampleTaskWorld).1 = Except.ok u) ∧
          sampleTaskWorld.commitOk = true) :=
  C1_retire_inside_locking_txn sampleTaskWorld sampleJob rfl rfl

/-- C4: for every locked job whose tag is absent from the registry, the
closure built by `run_single_job` produces the handler error
`"Unknown job type <tag>"`, and the job is retired through the failure
path: `updateFailedJob` appears in the task trace and
`deleteSuccessfulJob` does not. -/
theorem C4_unknown_job_type (Env : Type)
    (registry : String → Option (String → Env → UnwindResult)) (environment : Env)
    (w : TaskWorld) (job : BackgroundJob)
    (hp : w.poolGet = true) (hf : w.findNext = Except.ok (some job))
    (hh : w.handler = run_single_job_handler registry environment)
    (hr : registry job.job_type = none) :
    firewall (w.handler job) = Except.error ("Unknown job type " ++ job.job_type) ∧
    Event.updateFailedJob job.id ∈ (taskRun w).2 ∧
    Event.deleteSuccessfulJob job.id ∉ (taskRun w).2 := by
  have hfw : firewall (w.handler job) =
      Except.error ("Unknown job type " ++ job.job_type) := by
    simp [hh, run_single_job_handler, hr, firewall]
  have htxn : txnClosure w = (Except.ok (),
      [Event.findNextUnlockedJob, Event.invokeHandler job.id,
        Event.logWarning ("Job " ++ toString job.id ++ " failed to run: " ++
          ("Unknown job type " ++ job.job_type)),
        Event.updateFailedJob job.id]) := by
    simp [txnClosure, hf, hfw]
  refine ⟨hfw, ?_, ?_⟩ <;>
    cases hco : w.commitOk <;> simp [taskRun, hp, htxn, hco]

theorem C4_unknown_job_type_witness :
    firewall (c4World.handler sampleJob) =
      Except.error ("Unknown job type " ++ sampleJob.job_type) ∧
    Event.updateFailedJob sampleJob.id ∈ (taskRun c4World).2 ∧
    Event.deleteSuccessfulJob sampleJob.id ∉ (taskRun c4World).2 :=
  C4_unknown_job_type Unit emptyRegistry () c4World sampleJob rfl rfl rfl rfl

/-- C5: for every locked job, a handler returning `Ok` leads to
`deleteSuccessfulJob` with the locked job's id; a handler error (after
the firewall, so in particular a converted panic) leads to the log line
`"Job <id> failed to run: <err>"` and `updateFailedJob` with that id; and
a panic with payload `p` makes the task behave identically to a handler
that returns the error `try_to_extract_panic_info p`. -/
theorem C5_retire_paths (w : TaskWorld) (job : BackgroundJob)
    (hp : w.poolGet = true) (hf : w.findNext = Except.ok (some job)) :
    (w.handler job = UnwindResult.ok →
      Event.deleteSuccessfulJob job.id ∈ (taskRun w).2 ∧
      Event.updateFailedJob job.id ∉ (taskRun w).2) ∧
    (∀ e, firewall (w.handler job) = Except.error e →
      Event.logWarning ("Job " ++ toString job.id ++ " failed to run: " ++ e) ∈
        (taskRun w).2 ∧
      Event.updateFailedJob job.id ∈ (taskRun w).2 ∧
      Event.deleteSuccessfulJob job.id ∉ (taskRun w).2) ∧
    (∀ p, w.handler job = UnwindResult.panicked p →
      taskRun w = taskRun { w with handler := (fun j =>
        if j = job then UnwindResult.err (try_to_extract_panic_info p)
        else w.handler j) }) := by
  refine ⟨?_, ?_, ?_⟩
  · intro hok
    have hfw : firewall (w.handler job) = Except.ok () := by simp [firewall, hok]
    cases hd : w.deleteResult job.id with
    | ok v =>
      have htxn : txnClosure w = (Except.ok (),
          [Event.findNextUnlockedJob, Event.invokeHandler job.id,
            Event.deleteSuccessfulJob job.id]) := by
        simp [txnClosure, hf, hfw, hd]
      cases hco : w.commitOk <;> simp [taskRun, hp, htxn, hco]
    | error err =>
      have htxn : txnClosure w = (Except.error err,
          [Event.findNextUnlockedJob, Event.invokeHandler job.id,
            Event.deleteSuccessfulJob job.id]) := by
        simp [txnClosure, hf, hfw, hd]
      simp [taskRun, hp, htxn]
  · intro e hfw
    have htxn : txnClosure w = (Except.ok (),
        [Event.findNextUnlockedJob, Event.invokeHandler job.id,
          Event.logWarning ("Job " ++ toString job.id ++ " failed to run: " ++ e),
          Event.updateFailedJob job.id]) := by
      simp [txnClosure, hf, hfw]
    cases hco : w.commitOk <;> simp [taskRun, hp, htxn, hco]
  · intro p hpk
    have htxn : txnClosure w = txnClosure { w with handler := (fun j =>
        if j = job then UnwindResult.err (try_to_extract_panic_info p)
        else w.handler j) } := by
      simp [txnClosure, hf, firewall, hpk]
    simp [taskRun, htxn]

theorem C5_retire_paths_witness :
    Event.logWarning ("Job " ++ toString sampleJob.id ++ " failed to run: " ++ "nope") ∈
      (taskRun c5World).2 ∧
    Event.updateFailedJob sampleJob.id ∈ (taskRun c5World).2 ∧
    Event.deleteSuccessfulJob sampleJob.id ∉ (taskRun c5World).2 :=
  (C5_retire_paths c5World sampleJob rfl rfl).2.1 "nope" rfl

/-- C8: for every task whose transaction fails — the closure returns an
error or the commit fails — the task aborts by a panic from
`expect("Could not retrieve or update job")`, and because the
transaction never committed the locked row reverts to its initial state,
with its original retry count. -/
theorem C8_txn_failure_aborts_and_rolls_back (w : TaskWorld) (init : Nat) (jobId : Int)
    (hp : w.poolGet = true)
    (hfail : (∃ e, (txnClosure w).1 = Except.error e) ∨ w.commitOk = false) :
    (taskRun w).1 = TaskResult.panicked "Could not retrieve or update job" ∧
    finalRowState init jobId w = RowState.available init := by
  have hroll : taskRun w = (TaskResult.panicked "Could not retrieve or update job",
      (txnClosure w).2 ++ [Event.rollback]) := by
    cases hr : (txnClosure w).1 with
    | ok u =>
      have hco : w.commitOk = false := by
        rcases hfail with ⟨e, he⟩ | hco
        · rw [hr] at he
          exact absurd he (by simp)
        · exact hco
      simp [taskRun, hp, hr, hco]
    | error e => simp [taskRun, hp, hr]
  have hnc : Event.commit ∉ (taskRun w).2 := by
    rw [hroll]
    simp only [List.mem_append, List.mem_singleton]
    rintro (hmem | hmem)
    · exact commit_not_in_txnClosure w hmem
    · exact absurd hmem (by simp)
  refine ⟨by rw [hroll], ?_⟩
  simp [finalRowState, hnc]

theorem C8_txn_failure_aborts_and_rolls_back_witness :
    (taskRun { sampleTaskWorld with commitOk := false }).1 =
      TaskResult.panicked "Could not retrieve or update job" ∧
    finalRowState 0 sampleJob.id { sampleTaskWorld with commitOk := false } =
      RowState.available 0 :=
  C8_txn_failure_aborts_and_rolls_back { sampleTaskWorld with commitOk := false }
    0 sampleJob.id rfl (Or.inr rfl)

/-- C10: `assert_no_failed_jobs` first joins the worker pool and asserts
the panic count is zero (its trace always begins with the join and that
assertion, and stops there when the assertion fails), then queries
`failed_job_count` on a fresh connection and asserts the result is zero;
it returns `Ok(())` precisely when the panic count is zero, a connection
is available, and the failed-job count comes back zero. -/
theorem C10_assert_no_failed_jobs_behaviour (w : ObserverWorld) :
    ((assert_no_failed_jobs w).1 = Outcome.ok ↔
      w.panicCount = 0 ∧ (∃ u, w.connection = Except.ok u) ∧
        w.failedJobCount = Except.ok 0) ∧
    (∃ rest, (assert_no_failed_jobs w).2 =
      ObserveEvent.joinPool :: ObserveEvent.assertPanicCountZero :: rest) ∧
    (¬ w.panicCount = 0 →
      (assert_no_failed_jobs w) =
        (Outcome.panicked "assertion failed: panic_count is not 0",
          [ObserveEvent.joinPool, ObserveEvent.assertPanicCountZero])) := by
  refine ⟨?_, ?_, ?_⟩
  · by_cases hpc : w.panicCount = 0
    · cases hcn : w.connection with
      | error e => simp [assert_no_failed_jobs, wait_for_jobs, hpc, hcn]
      | ok u =>
        cases hfc : w.failedJobCount with
        | error e => simp [assert_no_failed_jobs, wait_for_jobs, hpc, hcn, hfc]
        | ok n =>
          by_cases hn : n = 0 <;>
            simp [assert_no_failed_jobs, wait_for_jobs, hpc, hcn, hfc, hn]
    · simp [assert_no_failed_jobs, wait_for_jobs, hpc]
  · by_cases hpc : w.panicCount = 0
    · cases hcn : w.connection with
      | error e =>
        exact ⟨[ObserveEvent.getConnection],
          by simp [assert_no_failed_jobs, wait_for_jobs, hpc, hcn]⟩
      | ok u =>
        cases hfc : w.failedJobCount with
        | error e =>
          exact ⟨[ObserveEvent.getConnection, ObserveEvent.queryFailedJobCount],
            by simp [assert_no_failed_jobs, wait_for_jobs, hpc, hcn, hfc]⟩
        | ok n =>
          by_cases hn : n = 0
          · exact ⟨[ObserveEvent.getConnection, ObserveEvent.queryFailedJobCount,
              ObserveEvent.assertFailedZero],
              by simp [assert_no_failed_jobs, wait_for_jobs, hpc, hcn, hfc, hn]⟩
          · exact ⟨[ObserveEvent.getConnection, ObserveEvent.queryFailedJobCount,
              ObserveEvent.assertFailedZero],
              by simp [assert_no_failed_jobs, wait_for_jobs, hpc, hcn, hfc, hn]⟩
    · exact ⟨[], by simp [assert_no_failed_jobs, wait_for_jobs, hpc]⟩
  · intro hpc
    simp [assert_no_failed_jobs, wait_for_jobs, hpc]

theorem C10_assert_no_failed_jobs_behaviour_witness :
    (assert_no_failed_jobs obsWorldOk).1 = Outcome.ok :=
  (C10_assert_no_failed_jobs_behaviour obsWorldOk).1.mpr ⟨rfl, ⟨(), rfl⟩, rfl⟩

end Swirl
